import Mathlib

/-!
Shallow embedding of the asynchronous AI-reply pipeline of the
gemini_chatRoom backend (TypeScript sources under src/), together with
proofs settling the specification claims about it.

Conventions of the embedding:
- JS strings that carry message content are embedded as `List Char`
  (called `Content`), so that length checks and trimming are directly
  computable; identifiers stay `String`.
- The relational store (Prisma) is a `Store` record; the message table is
  kept in creation-time order (oldest first), so `orderBy createdAt asc`
  is the list itself and `orderBy createdAt desc` is its reverse.
- Fallible store reads return `Except String`; a store with
  `available = false` makes every database call fail, which models the
  "store unavailable" situations of the spec.
- External effects that the code merely reacts to (the Gemini API call,
  success of individual writes, queue availability) are supplied as
  explicit environment values.
-/

namespace GeminiChat

/-- Message content, the embedding of a JS string holding user or AI text. -/
abbrev Content := List Char

/-- Whitespace test used by JS String.trim (restricted to the common
whitespace characters). -/
def isWsChar (c : Char) : Bool :=
  c == ' ' || c == '\t' || c == '\n' || c == '\r'

/-- Embedding of JS `content.trim()`: strip whitespace from both ends. -/
def trimContent (l : Content) : Content :=
  ((l.dropWhile isWsChar).reverse.dropWhile isWsChar).reverse

/-- Does `l` start with `p`? Helper for substring tests. -/
def startsWithChars : Content → Content → Bool
  | _, [] => true
  | [], _ :: _ => false
  | c :: t, d :: u => c == d && startsWithChars t u

/-- Embedding of JS `hay.includes(sub)` on strings. -/
def containsSub : Content → Content → Bool
  | [], sub => sub.isEmpty
  | c :: t, sub => startsWithChars (c :: t) sub || containsSub t sub

/-- Row of the `chatroom` table (the fields the pipeline reads). -/
structure Chatroom where
  id : String
  userId : String
deriving DecidableEq

/-- Row of the `user` table (the fields `canSendMessage` reads). -/
structure User where
  id : String
  subscriptionStatus : String
  subscriptionTier : String
  dailyMessageCount : Nat
deriving DecidableEq

/-- Row of the `message` table. -/
structure Message where
  id : String
  chatroomId : String
  content : Content
  sender : String
  messageType : String
deriving DecidableEq

/-- The relational store. `messages` is kept in creation-time order,
oldest first; `available = false` makes every database call throw. -/
structure Store where
  available : Bool
  chatrooms : List Chatroom
  users : List User
  messages : List Message
deriving DecidableEq

/-- Embedding of `db.user.findUnique({ where: { id } })`; fails when the
store is unavailable. -/
def findUser (s : Store) (userId : String) : Except String (Option User) :=
  if s.available then .ok (s.users.find? (fun u => u.id == userId))
  else .error "db unavailable"

/-- Result shape of `SubscriptionService.canSendMessage`. -/
structure CanSendResult where
  canSend : Bool
  reason : Option String
deriving DecidableEq

/-- AppConfig.basicTierDailyLimit (default value 5). -/
def basicTierDailyLimit : Nat := 5

/-- AppConfig.proTierDailyLimit (default value 1000). -/
def proTierDailyLimit : Nat := 1000

/-- Limits record returned by `getSubscriptionLimits`. -/
structure SubscriptionLimits where
  dailyMessageLimit : Nat
  features : List String
deriving DecidableEq

/-- Embedding of `SubscriptionService.getSubscriptionLimits`: the pro tier
gets the pro limit, every other tier string gets the basic limit. -/
def getSubscriptionLimits (tier : String) : SubscriptionLimits :=
  if tier == "pro" then
    ⟨proTierDailyLimit, ["unlimited_messages", "priority_support", "advanced_ai"]⟩
  else
    ⟨basicTierDailyLimit, ["basic_messages", "standard_support"]⟩

/-- Body of `canSendMessage` inside its try block: read the user row, then
check status and the daily limit. Errors of the read propagate. -/
def canSendMessageBody (userRead : Except String (Option User)) :
    Except String CanSendResult :=
  match userRead with
  | .error e => .error e
  | .ok none => .ok ⟨false, some "User not found"⟩
  | .ok (some u) =>
    if u.subscriptionStatus != "active" then
      .ok ⟨false, some "Inactive subscription"⟩
    else if (getSubscriptionLimits u.subscriptionTier).dailyMessageLimit ≤
        u.dailyMessageCount then
      .ok ⟨false, some "Daily message limit exceeded"⟩
    else
      .ok ⟨true, none⟩

/-- Embedding of `SubscriptionService.canSendMessage`: the catch block
turns any store error into a fail-closed answer instead of rethrowing. -/
def canSendMessage (userRead : Except String (Option User)) : CanSendResult :=
  match canSendMessageBody userRead with
  | .ok r => r
  | .error _ => ⟨false, some "System error"⟩

/-!
Interleaving model of `SubscriptionService.trackMessageUsage`.

The function does, for the (userId, today) daily-usage row:
  1. `findUnique` — read the row (count, or absent);
  2. `create {messageCount: 1}` when absent, else
     `update {messageCount: read + 1}` — write back read value plus one;
  3. `user.update {dailyMessageCount: written value}` — mirror the count
     onto the user row.
Each numbered step is one atomic store operation; the composition is not
atomic. A concurrent execution of M calls is an interleaving of the
steps of the M calls against the shared row.
-/

/-- Local state of one in-flight `trackMessageUsage` call.
`pc` 0: about to read; 1: about to write the usage row; 2: about to write
the user mirror; 3: done; 4: failed (create hit an existing row). -/
structure TrackCall where
  pc : Nat
  readVal : Option Nat
  written : Nat
deriving DecidableEq

/-- Shared state plus the in-flight calls. `rowCount` is the daily-usage
row for (user, today), `none` when the row does not exist yet;
`userCount` is `user.dailyMessageCount`. -/
structure TrackSystem where
  rowCount : Option Nat
  userCount : Nat
  calls : List TrackCall
deriving DecidableEq

/-- Run one atomic step of call `i` (no-op when `i` is finished or out of
range). The write step is `create 1` when the call read no row — which
fails on the unique (userId, date) constraint if some other call created
the row meanwhile — and `update (read + 1)` otherwise. -/
def trackStep (sys : TrackSystem) (i : Nat) : TrackSystem :=
  match sys.calls.get? i with
  | none => sys
  | some c =>
    if c.pc == 0 then
      { sys with calls := sys.calls.set i { c with pc := 1, readVal := sys.rowCount } }
    else if c.pc == 1 then
      match c.readVal with
      | none =>
        match sys.rowCount with
        | none =>
          { sys with rowCount := some 1,
                     calls := sys.calls.set i { c with pc := 2, written := 1 } }
        | some _ =>
          { sys with calls := sys.calls.set i { c with pc := 4 } }
      | some v =>
        { sys with rowCount := some (v + 1),
                   calls := sys.calls.set i { c with pc := 2, written := v + 1 } }
    else if c.pc == 2 then
      { sys with userCount := c.written,
                 calls := sys.calls.set i { c with pc := 3 } }
    else sys

/-- Run a schedule: a list of call indices, each entry executing one
atomic step of that call. -/
def trackRun (sys : TrackSystem) (sched : List Nat) : TrackSystem :=
  sched.foldl trackStep sys

/-- Initial system: the shared row holds `init` and `m` calls are about
to start. -/
def trackInit (init : Option Nat) (userCount : Nat) (m : Nat) : TrackSystem :=
  ⟨init, userCount, List.replicate m ⟨0, none, 0⟩⟩

/-!
Generation Gateway (`GeminiService.generateResponse`).
-/

/-- Classification of a generation failure per the specification taxonomy.
The external call can fail in any of these ways; the embedding records
which way, so that we can ask whether the code treats them differently. -/
inductive GenFailureKind
  | transient
  | permanentlyRejected
  | quotaExceeded
deriving DecidableEq

/-- Behavior of the external Gemini API for one call. -/
inductive GenOutcome
  | success (text : Content)
  | failure (kind : GenFailureKind)
deriving DecidableEq

/-- Response shape of `generateResponse`; the usage numbers are always
zero because the current API does not report them. -/
structure GeminiResponse where
  content : Content
  promptTokens : Nat
  responseTokens : Nat
  totalTokens : Nat
deriving DecidableEq

/-- Message of the underlying error object thrown by the Gemini SDK for
each failure kind. -/
def genFailureText (k : GenFailureKind) : String :=
  match k with
  | .transient => "fetch failed"
  | .permanentlyRejected => "candidate was blocked due to SAFETY"
  | .quotaExceeded => "429 resource has been exhausted"

/-- Embedding of `GeminiService.generateResponse`: on success it wraps the
text with zeroed usage metadata; on any failure the catch block throws one
generic `Error` whose message embeds the underlying text — the failure
kind is not classified into distinct error types. -/
def generateResponse (outcome : GenOutcome) : Except String GeminiResponse :=
  match outcome with
  | .success t => .ok ⟨t, 0, 0, 0⟩
  | .failure k => .error ("Failed to generate Gemini response: " ++ genFailureText k)

/-!
Context Assembler (`GeminiWorker.getConversationHistory`).
-/

/-- One history entry in the format the Gemini API takes. -/
structure GeminiMessage where
  role : String
  parts : List Content
deriving DecidableEq

/-- Sender-to-role mapping used when converting stored messages. -/
def messageToGemini (m : Message) : GeminiMessage :=
  ⟨if m.sender == "user" then "user" else "model", [m.content]⟩

/-- Embedding of `db.message.findMany({where: {chatroomId}, orderBy:
{createdAt: asc}, take: n})`: the stored list is already in ascending
creation order, so this filters and takes the first `n`. Fails when the
store is unavailable. -/
def findMessagesAscTake (s : Store) (rid : String) (n : Nat) :
    Except String (List Message) :=
  if s.available then
    .ok ((s.messages.filter (fun m => m.chatroomId == rid)).take n)
  else .error "store unavailable"

/-- Embedding of `GeminiWorker.getConversationHistory`: no chatroom id
yields an empty history; a store error is caught and also yields an empty
history (the catch block logs and returns `[]`). -/
def getConversationHistory (s : Store) (chatRoomId : Option String) :
    List GeminiMessage :=
  match chatRoomId with
  | none => []
  | some rid =>
    match findMessagesAscTake s rid 10 with
    | .ok msgs => msgs.map messageToGemini
    | .error _ => []

/-- Modelled from the spec: `buildWindow` as the specification words it —
fetch the most recent `k` messages of the chatroom ordered by creation
time descending, then reverse to oldest-first. Stated only to be compared
with `getConversationHistory`, which is translated from the source. -/
def buildWindowSpec (s : Store) (rid : String) (k : Nat) : List GeminiMessage :=
  ((((s.messages.filter (fun m => m.chatroomId == rid)).reverse).take k).reverse).map
    messageToGemini

/-!
Worker response post-processing (`GeminiWorker.processGeminiResponse`).
-/

/-- Three backtick characters, the fenced code block marker. -/
def codeBlockMark : Content := List.replicate 3 (Char.ofNat 96)

/-- Processed response: the content plus derived formatting flags. -/
structure ProcessedResponse where
  content : Content
  hasCodeBlocks : Bool
  hasLinks : Bool
  hasList : Bool
deriving DecidableEq

/-- Embedding of `GeminiWorker.processGeminiResponse` (the fields the
claims refer to): content passes through unchanged and the formatting
flags are substring tests. -/
def processGeminiResponse (r : GeminiResponse) : ProcessedResponse :=
  { content := r.content
    hasCodeBlocks := containsSub r.content codeBlockMark
    hasLinks := containsSub r.content "http".toList
    hasList := containsSub r.content "- ".toList || containsSub r.content "* ".toList }

/-!
Persistence step (`GeminiWorker.saveGeminiResponse`).
-/

/-- Success of the individual writes attempted inside
`saveGeminiResponse`: `createOk` is the `message.create`, `updateOk` the
`chatroom.update` of the activity timestamp. Cache invalidation never
throws (it catches internally), so it needs no flag. -/
structure SaveEnv where
  createOk : Bool
  updateOk : Bool
deriving DecidableEq

/-- What `saveGeminiResponse` returns: either the created row or, from
the catch block, the mock object. -/
structure SavedMessage where
  id : String
  content : Content
  sender : String
  messageType : String
deriving DecidableEq

/-- The mock object returned by the catch block of `saveGeminiResponse`. -/
def failedSaveMock : SavedMessage :=
  ⟨"failed-save", "Failed to save AI response".toList, "ai", "text"⟩

/-- Identifier the store assigns to a newly created message row. -/
def freshMessageId (s : Store) : String :=
  "gen-" ++ Nat.repr s.messages.length

/-- Embedding of `GeminiWorker.saveGeminiResponse`. Inside the try block:
look the chatroom up by id alone, create the AI message row, update the
chatroom timestamp, invalidate the cache. Any failure is caught, logged,
and the mock object is returned — the function never throws, and writes
that already happened before the failure remain. -/
def saveGeminiResponse (env : SaveEnv) (s : Store) (chatRoomId : String) :
    ProcessedResponse → SavedMessage × Store := fun resp =>
  if !s.available then (failedSaveMock, s)
  else
    match s.chatrooms.find? (fun c => c.id == chatRoomId) with
    | none => (failedSaveMock, s)
    | some _ =>
      if !env.createOk then (failedSaveMock, s)
      else
        let m : Message :=
          ⟨freshMessageId s, chatRoomId, resp.content, "ai", "text"⟩
        let s1 : Store := { s with messages := s.messages ++ [m] }
        if !env.updateOk then (failedSaveMock, s1)
        else (⟨m.id, m.content, m.sender, m.messageType⟩, s1)

/-!
Worker orchestration (`GeminiWorker.processGeminiJob`) and the queue
retry policy (`QueueConfig.getDefaultQueueOptions`).
-/

/-- The `context` object a job carries; all fields are optional because
the callers build it ad hoc. -/
structure JobContext where
  chatRoomId : Option String
  userId : Option String
  messageType : Option String
deriving DecidableEq

/-- Payload of a Gemini processing job (`GeminiMessageJob`). -/
structure GeminiMessageJob where
  messageId : String
  chatRoomId : String
  userId : String
  userMessage : Content
  context : Option JobContext
deriving DecidableEq

/-- Terminal outcome of one processing attempt: the resolved result
object, or the rethrown error that marks the attempt failed. -/
inductive JobOutcome
  | completed (savedMessageId : String) (responseContent : Content)
  | failed (errMsg : String)
deriving DecidableEq

/-- Record of one processing attempt: its outcome, whether the external
generation call was made, the history that was sent to it (`none` when
generation was never reached), and the store afterwards. -/
structure JobRun where
  outcome : JobOutcome
  generationCalled : Bool
  historySent : Option (List GeminiMessage)
  store : Store
deriving DecidableEq

/-- External behavior surrounding one processing attempt. -/
structure WorkerEnv where
  gen : GenOutcome
  save : SaveEnv
deriving DecidableEq

/-- Embedding of `context?.chatRoomId`: the chatroom id a job context
carries, if any. -/
def jobContextRoom (job : GeminiMessageJob) : Option String :=
  match job.context with
  | none => none
  | some c => c.chatRoomId

/-- Embedding of `GeminiWorker.processGeminiJob` for one attempt:
build the history from `context?.chatRoomId` (never throws), call the
Gemini API (a failure is caught in `callGeminiAPI` and rethrown as the
generic message, failing the attempt), post-process, then persist via
`saveGeminiResponse` (never throws). The worker performs no usage gating. -/
def processGeminiJob (env : WorkerEnv) (s : Store) (job : GeminiMessageJob) :
    JobRun :=
  let history := getConversationHistory s (jobContextRoom job)
  match generateResponse env.gen with
  | .error _ => ⟨.failed "Failed to call Gemini API", true, some history, s⟩
  | .ok resp =>
    let processed := processGeminiResponse resp
    let (saved, s1) := saveGeminiResponse env.save s job.chatRoomId processed
    ⟨.completed saved.id processed.content, true, some history, s1⟩

/-- `attempts: 3` from `QueueConfig.getDefaultQueueOptions`: every job is
attempted up to 3 times in total, whatever the failure. -/
def defaultJobAttempts : Nat := 3

/-- Result of running a job through the queue until it completes or its
attempts are exhausted. -/
structure QueueRun where
  finalOutcome : JobOutcome
  attemptsUsed : Nat
  store : Store
deriving DecidableEq

/-- Attempt the job up to `fuel` times, rerunning after every failed
attempt (BullMQ applies the same retry policy to every thrown error). -/
def runAttempts (env : WorkerEnv) (job : GeminiMessageJob) :
    Nat → Store → Nat → QueueRun
  | 0, s, used => ⟨.failed "attempts exhausted", used, s⟩
  | fuel + 1, s, used =>
    let r := processGeminiJob env s job
    match r.outcome with
    | .completed i c => ⟨.completed i c, used + 1, r.store⟩
    | .failed e =>
      if fuel == 0 then ⟨.failed e, used + 1, r.store⟩
      else runAttempts env job fuel r.store (used + 1)

/-- Run a job under the default queue options (3 total attempts). -/
def runJob (env : WorkerEnv) (s : Store) (job : GeminiMessageJob) : QueueRun :=
  runAttempts env job defaultJobAttempts s 0

/-- Number of persisted messages with sender "ai" in a chatroom. -/
def aiMessageCount (s : Store) (rid : String) : Nat :=
  (s.messages.filter (fun m => m.chatroomId == rid && m.sender == "ai")).length

/-!
Synchronous send path: `MessageService.createMessage`,
`MessageController.sendMessage`, `QueueController.enqueueTestMessage`.
-/

/-- Errors `createMessage` can throw. -/
inductive CreateError
  | validation (msg : String)
  | notFound (msg : String)
  | dbError (msg : String)
deriving DecidableEq

/-- Embedding of `MessageService.createMessage`. In source order: content
validation (empty or whitespace-only, then the 4000-character cap on the
untrimmed content, then the sender tag), chatroom lookup by id and owner,
the `canSendMessage` gate for user messages, then the create with trimmed
content, the chatroom timestamp update, usage tracking for user messages
(its sequential effect: the user daily count grows by one), and cache
invalidation. Errors propagate (the catch rethrows). -/
def createMessage (s : Store) (chatroomId userId : String) (content : Content)
    (sender : String) (messageType : Option String) :
    Except CreateError (Message × Store) :=
  if (trimContent content).isEmpty then
    .error (.validation "Message content is required")
  else if 4000 < content.length then
    .error (.validation "Message content cannot exceed 4000 characters")
  else if !(sender == "user" || sender == "ai") then
    .error (.validation "Invalid sender type")
  else if !s.available then
    .error (.dbError "db unavailable")
  else
    match s.chatrooms.find? (fun c => c.id == chatroomId && c.userId == userId) with
    | none => .error (.notFound "Chatroom not found")
    | some _ =>
      let gate := canSendMessage (findUser s userId)
      if sender == "user" && !gate.canSend then
        .error (.validation ("Cannot send message: " ++ gate.reason.getD "undefined"))
      else
        let m : Message :=
          ⟨freshMessageId s, chatroomId, trimContent content, sender,
            messageType.getD "text"⟩
        let s1 : Store := { s with messages := s.messages ++ [m] }
        let s2 : Store :=
          if sender == "user" then
            { s1 with users := s1.users.map (fun u =>
                if u.id == userId then
                  { u with dailyMessageCount := u.dailyMessageCount + 1 }
                else u) }
          else s1
        .ok (m, s2)

/-- Queue availability for the submission path. -/
structure SendEnv where
  queueOk : Bool
deriving DecidableEq

/-- Responses of the send-message endpoint that the claims distinguish. -/
inductive SendResponse
  | unauthenticated
  | missingChatroomId
  | createError (e : CreateError)
  | sentAndQueued (messageId : String) (job : GeminiMessageJob)
  | sentQueueFailed (messageId : String)
  | sentOnly (messageId : String)
deriving DecidableEq

/-- Embedding of `MessageController.sendMessage`: authenticate, require a
chatroom id, create the user message, then (when `processWithGemini`)
enqueue the job. The enqueued context holds only the message type and a
timestamp — no chatRoomId and no userId fields — and the raw (untrimmed)
body content travels as `userMessage`. A queue failure is caught and
answered as a 201 success with a warning; nothing is rolled back. -/
def sendMessage (env : SendEnv) (s : Store) (auth : Option String)
    (chatroomId : Option String) (content : Content)
    (messageType : Option String) (processWithGemini : Bool) :
    SendResponse × Store :=
  match auth with
  | none => (.unauthenticated, s)
  | some userId =>
    match chatroomId with
    | none => (.missingChatroomId, s)
    | some rid =>
      match createMessage s rid userId content "user" messageType with
      | .error e => (.createError e, s)
      | .ok (m, s1) =>
        if processWithGemini then
          let job : GeminiMessageJob :=
            ⟨m.id, rid, userId, content,
              some ⟨none, none, some (messageType.getD "text")⟩⟩
          if env.queueOk then (.sentAndQueued m.id job, s1)
          else (.sentQueueFailed m.id, s1)
        else (.sentOnly m.id, s1)

/-- Embedding of `QueueController.enqueueTestMessage`: authenticate,
require a chatroom id and a user message (JS truthiness, so empty strings
are rejected too), then enqueue directly — no usage gate is consulted.
`none` stands for the 400/401 rejections; otherwise the enqueued job is
returned. -/
def enqueueTestMessage (auth : Option String) (chatRoomId : Option String)
    (userMessage : Option Content) (context : Option JobContext) (now : Nat) :
    Option GeminiMessageJob :=
  match auth with
  | none => none
  | some userId =>
    match chatRoomId, userMessage with
    | some rid, some msg =>
      if rid.isEmpty || msg.isEmpty then none
      else some ⟨"test-" ++ Nat.repr now, rid, userId, msg, context⟩
    | _, _ => none

/-!
Concrete fixtures used by the counterexamples and witnesses.
-/

/-- The i-th chronological message of the fixture chatroom "r1". -/
def mkHistMsg (i : Nat) : Message :=
  ⟨"m" ++ Nat.repr i, "r1", [Char.ofNat (64 + i)], "user", "text"⟩

/-- Fixture store: chatroom "r1" owned by "u1" with 12 prior messages in
chronological order. -/
def store12 : Store :=
  ⟨true, [⟨"r1", "u1"⟩], [⟨"u1", "active", "basic", 0⟩],
    (List.range 12).map (fun i => mkHistMsg (i + 1))⟩

/-- Fixture store with the message store unavailable. -/
def storeDown : Store :=
  ⟨false, [⟨"r1", "u1"⟩], [⟨"u1", "active", "basic", 0⟩],
    (List.range 12).map (fun i => mkHistMsg (i + 1))⟩

/-- Fixture store: the basic-tier user "u1" already at the daily limit. -/
def storeLimit : Store := ⟨true, [⟨"r1", "u1"⟩], [⟨"u1", "active", "basic", 5⟩], []⟩

/-- Fixture store for the send path: user "u1" under the limit, empty
chatroom "r1". -/
def storeSend : Store := ⟨true, [⟨"r1", "u1"⟩], [⟨"u1", "active", "basic", 0⟩], []⟩

/-- Fixture job whose context names chatroom "r1". -/
def jobR1 : GeminiMessageJob :=
  ⟨"m1", "r1", "u1", "hello".toList, some ⟨some "r1", some "u1", some "text"⟩⟩

/-- Fixture environment: generation succeeds with "hi", all writes fine. -/
def envOkGen : WorkerEnv := ⟨.success "hi".toList, ⟨true, true⟩⟩

/-- Fixture environment: generation succeeds, the message create fails. -/
def envCreateFails : WorkerEnv := ⟨.success "hi".toList, ⟨false, true⟩⟩

/-- Fixture environment: generation succeeds, the message create succeeds,
the later chatroom timestamp update fails. -/
def envUpdateFails : WorkerEnv := ⟨.success "hi".toList, ⟨true, false⟩⟩

/-- Fixture environment: generation permanently rejected, writes fine. -/
def envRejected : WorkerEnv := ⟨.failure .permanentlyRejected, ⟨true, true⟩⟩

/-- Fixture environment: transient generation failure, writes fine. -/
def envTransient : WorkerEnv := ⟨.failure .transient, ⟨true, true⟩⟩

/-- Fixture job as enqueued by the test endpoint for the at-limit user. -/
def jobTest : GeminiMessageJob :=
  ⟨"test-7", "r1", "u1", "hello".toList, some ⟨some "r1", some "u1", none⟩⟩

/-!
Claim theorems.
-/

/-- C7: if reading the user row (subscription state and today-count)
errors, `canSendMessage` answers disallowed ("System error") instead of
propagating the exception — a store error never grants usage and never
escapes to the caller. -/
theorem canSendMessage_fails_closed_on_read_error (e : String) :
    canSendMessage (.error e) = ⟨false, some "System error"⟩ := rfl

/-- C3 counterexample: two concurrent `trackMessageUsage` calls starting
from count 0, interleaved so that both read before either writes, both
run to completion (pc 3) yet leave the count at 1, not 0 + 2 — a lost
update, refuting the claim that every interleaving yields initial + M. -/
theorem trackMessageUsage_lost_update_cex :
    (trackRun (trackInit (some 0) 0 2) [0, 1, 0, 1, 0, 1]).calls =
      [⟨3, some 0, 1⟩, ⟨3, some 0, 1⟩] ∧
    (trackRun (trackInit (some 0) 0 2) [0, 1, 0, 1, 0, 1]).rowCount = some 1 ∧
    some 1 ≠ some (0 + 2) := by decide

/-- C3 amended: `trackMessageUsage` increments through an application-layer
read-modify-write (separate find and update store operations), not one
atomic store operation; for any initial count, the interleaving in which
both of two concurrent calls read before either writes loses an update
(final count = initial + 1), while the sequential schedule gives
initial + 2. -/
theorem trackMessageUsage_read_modify_write (c : Nat) :
    (trackRun (trackInit (some c) c 2) [0, 1, 0, 1, 0, 1]).rowCount = some (c + 1) ∧
    (trackRun (trackInit (some c) c 2) [0, 0, 0, 1, 1, 1]).rowCount = some (c + 2) :=
  ⟨rfl, rfl⟩

/-- C2 counterexample: in a chatroom with 12 prior messages and window
size 10, the code window is messages 1 through 10 (the oldest ten, fetched
ascending and not reversed), not messages 3 through 12 as the claim
states; the spec-worded window (most recent ten descending, then
reversed) would be messages 3 through 12. -/
theorem conversationWindow_oldest_not_recent_cex :
    getConversationHistory store12 (some "r1") =
      (List.range 10).map (fun i => messageToGemini (mkHistMsg (i + 1))) ∧
    buildWindowSpec store12 "r1" 10 =
      (List.range 10).map (fun i => messageToGemini (mkHistMsg (i + 3))) ∧
    getConversationHistory store12 (some "r1") ≠ buildWindowSpec store12 "r1" 10 := by
  decide

/-- C2 amended: building the conversation window fetches the 10 oldest
persisted messages of the chatroom (creation time ascending, take 10)
and returns them in that order without reversing; in particular, for a
chatroom with 12 prior messages it returns messages 1 through 10 in
chronological order, not the most recent ten. -/
theorem conversationWindow_oldest_ten (s : Store) (rid : String)
    (h : s.available = true) :
    getConversationHistory s (some rid) =
      ((s.messages.filter (fun m => m.chatroomId == rid)).take 10).map
        messageToGemini ∧
    getConversationHistory store12 (some "r1") =
      (List.range 10).map (fun i => messageToGemini (mkHistMsg (i + 1))) := by
  refine ⟨?_, by decide⟩
  simp [getConversationHistory, findMessagesAscTake, h]

/-- C2 witness: the general window characterization evaluated on the
12-message fixture store. -/
theorem conversationWindow_oldest_ten_witness :
    getConversationHistory store12 (some "r1") =
      ((store12.messages.filter (fun m => m.chatroomId == "r1")).take 10).map
        messageToGemini :=
  (conversationWindow_oldest_ten store12 "r1" rfl).1

/-- Helper: when the store is unavailable, or the chatroom is missing, or
the message create fails, `saveGeminiResponse` returns the mock object and
leaves the store unchanged. -/
theorem saveGeminiResponse_fail (env : SaveEnv) (s : Store) (rid : String)
    (resp : ProcessedResponse)
    (h : s.available = false ∨
      s.chatrooms.find? (fun c => c.id == rid) = none ∨ env.createOk = false) :
    saveGeminiResponse env s rid resp = (failedSaveMock, s) := by
  unfold saveGeminiResponse
  rcases h with h | h | h
  · simp [h]
  · cases hA : s.available <;> simp [h, hA]
  · cases hA : s.available
    · simp [hA]
    · cases hF : s.chatrooms.find? (fun c => c.id == rid) <;> simp [h, hA, hF]

/-- Helper: when the store is available, the chatroom exists and the
create succeeds, `saveGeminiResponse` appends exactly one AI message with
the response content, whatever happens to the later timestamp update. -/
theorem saveGeminiResponse_appends (env : SaveEnv) (s : Store) (rid : String)
    (resp : ProcessedResponse) (c : Chatroom)
    (hA : s.available = true) (hC : env.createOk = true)
    (hF : s.chatrooms.find? (fun cr => cr.id == rid) = some c) :
    (saveGeminiResponse env s rid resp).2.messages =
      s.messages ++ [⟨freshMessageId s, rid, resp.content, "ai", "text"⟩] ∧
    (env.updateOk = true →
      (saveGeminiResponse env s rid resp).1 =
        ⟨freshMessageId s, resp.content, "ai", "text"⟩) := by
  unfold saveGeminiResponse
  cases hU : env.updateOk <;> simp [hA, hC, hF, hU]

/-- Helper: shape of a processing attempt whose generation succeeds. -/
theorem processGeminiJob_gen_success (env : WorkerEnv) (s : Store)
    (job : GeminiMessageJob) (t : Content) (hg : env.gen = .success t) :
    processGeminiJob env s job =
      ⟨.completed
          (saveGeminiResponse env.save s job.chatRoomId
            (processGeminiResponse ⟨t, 0, 0, 0⟩)).1.id t,
        true,
        some (getConversationHistory s (jobContextRoom job)),
        (saveGeminiResponse env.save s job.chatRoomId
          (processGeminiResponse ⟨t, 0, 0, 0⟩)).2⟩ := by
  simp [processGeminiJob, hg, generateResponse, processGeminiResponse]

/-- Helper: shape of a processing attempt whose generation fails (any
failure kind): the attempt fails with the one generic error message and
the store is untouched. -/
theorem processGeminiJob_gen_failure (env : WorkerEnv) (s : Store)
    (job : GeminiMessageJob) (k : GenFailureKind) (hg : env.gen = .failure k) :
    processGeminiJob env s job =
      ⟨.failed "Failed to call Gemini API", true,
        some (getConversationHistory s (jobContextRoom job)), s⟩ := by
  simp [processGeminiJob, hg, generateResponse]

/-- C6 counterexample: the store is unavailable and the chatroom named by
the job context holds 12 messages, yet the job does not fail retryably at
context building: generation is still called, with a silently substituted
empty window, and the attempt even completes. -/
theorem contextBuilding_proceeds_cex :
    storeDown.available = false ∧
    storeDown.messages.length = 12 ∧
    (processGeminiJob envOkGen storeDown jobR1).generationCalled = true ∧
    (processGeminiJob envOkGen storeDown jobR1).historySent = some [] ∧
    (processGeminiJob envOkGen storeDown jobR1).outcome =
      .completed "failed-save" "hi".toList := by decide

/-- C6 amended: context building never mutates stored state, but when the
message store is unavailable it catches the failure and returns an empty
history, so the job proceeds to generation with a silently substituted
empty conversation window instead of failing with a retryable error. -/
theorem contextBuilding_silently_empty (s : Store) (cid : Option String)
    (env : WorkerEnv) (job : GeminiMessageJob) (t : Content)
    (h : s.available = false) (hg : env.gen = .success t) :
    getConversationHistory s cid = [] ∧
    (processGeminiJob env s job).generationCalled = true ∧
    (processGeminiJob env s job).historySent = some [] ∧
    (processGeminiJob env s job).store = s := by
  have hist : ∀ c : Option String, getConversationHistory s c = [] := by
    intro c
    cases c with
    | none => rfl
    | some rid => simp [getConversationHistory, findMessagesAscTake, h]
  have hsave := saveGeminiResponse_fail env.save s job.chatRoomId
    (processGeminiResponse ⟨t, 0, 0, 0⟩) (Or.inl h)
  rw [processGeminiJob_gen_success env s job t hg]
  exact ⟨hist cid, rfl, by rw [hist], by rw [hsave]⟩

/-- C6 witness: the amended statement evaluated on the unavailable fixture
store with the 12-message chatroom. -/
theorem contextBuilding_silently_empty_witness :
    getConversationHistory storeDown (some "r1") = [] ∧
    (processGeminiJob envOkGen storeDown jobR1).generationCalled = true ∧
    (processGeminiJob envOkGen storeDown jobR1).historySent = some [] ∧
    (processGeminiJob envOkGen storeDown jobR1).store = storeDown :=
  contextBuilding_silently_empty storeDown (some "r1") envOkGen jobR1
    "hi".toList rfl rfl

/-- C1 counterexample: generation succeeds but the message create fails;
the job is not reported failed — it completes, with the mock id
"failed-save" as its saved message id, and zero persisted AI messages. -/
theorem persistenceFailure_job_completes_cex :
    (processGeminiJob envCreateFails store12 jobR1).outcome =
      .completed "failed-save" "hi".toList ∧
    aiMessageCount (processGeminiJob envCreateFails store12 jobR1).store "r1" = 0 := by
  decide

/-- Helper: when the store is available, the chatroom exists and the
create succeeds but the chatroom timestamp update then fails, the catch
block still returns the mock object (the created message stays). -/
theorem saveGeminiResponse_mock_update_fail (env : SaveEnv) (s : Store)
    (rid : String) (resp : ProcessedResponse) (c : Chatroom)
    (hA : s.available = true) (hC : env.createOk = true)
    (hU : env.updateOk = false)
    (hF : s.chatrooms.find? (fun cr => cr.id == rid) = some c) :
    (saveGeminiResponse env s rid resp).1 = failedSaveMock := by
  unfold saveGeminiResponse
  simp [hA, hC, hU, hF]

/-- C1 amended: whenever persisting the AI reply fails after a successful
generation, the worker swallows the failure and returns the mock object
with id "failed-save": the job completes — it is never reported failed —
carrying the generated content in its completed result, and no automatic
re-persist is attempted. If the failure strikes before or at the message
create (unavailable store, missing chatroom, failed create), the store is
unchanged: zero persisted AI messages. If the create succeeds and only
the later chatroom timestamp update fails, exactly one AI message is
persisted even though the job reports the mock id. When every write
succeeds, the job completes with the new message id, again with exactly
one appended AI message — so a completed job may have persisted zero or
one AI replies. -/
theorem persistenceFailure_swallowed (env : WorkerEnv) (s : Store)
    (job : GeminiMessageJob) (t : Content) (hg : env.gen = .success t) :
    ((s.available = false ∨
        s.chatrooms.find? (fun c => c.id == job.chatRoomId) = none ∨
        env.save.createOk = false) →
      (processGeminiJob env s job).outcome = .completed "failed-save" t ∧
      (processGeminiJob env s job).store = s) ∧
    (∀ c : Chatroom, s.available = true → env.save.createOk = true →
      s.chatrooms.find? (fun cr => cr.id == job.chatRoomId) = some c →
      (processGeminiJob env s job).store.messages =
        s.messages ++ [⟨freshMessageId s, job.chatRoomId, t, "ai", "text"⟩] ∧
      (env.save.updateOk = false →
        (processGeminiJob env s job).outcome = .completed "failed-save" t) ∧
      (env.save.updateOk = true →
        (processGeminiJob env s job).outcome =
          .completed (freshMessageId s) t)) := by
  rw [processGeminiJob_gen_success env s job t hg]
  constructor
  · intro h
    have hsave := saveGeminiResponse_fail env.save s job.chatRoomId
      (processGeminiResponse ⟨t, 0, 0, 0⟩) h
    rw [hsave]
    exact ⟨rfl, rfl⟩
  · intro c hA hC hF
    have hsave := saveGeminiResponse_appends env.save s job.chatRoomId
      (processGeminiResponse ⟨t, 0, 0, 0⟩) c hA hC hF
    refine ⟨hsave.1, ?_, ?_⟩
    · intro hU
      rw [saveGeminiResponse_mock_update_fail env.save s job.chatRoomId
        (processGeminiResponse ⟨t, 0, 0, 0⟩) c hA hC hU hF]
      rfl
    · intro hU
      rw [hsave.2 hU]

/-- C1 witness: the three branches of the amended statement on the
fixture store — the failed-create environment completes with the mock id
and an unchanged store; the failed-timestamp-update environment completes
with the mock id yet persists exactly one AI message; the
all-writes-succeed environment completes with the new id and the same
single appended AI message. -/
theorem persistenceFailure_swallowed_witness :
    ((processGeminiJob envCreateFails store12 jobR1).outcome =
        .completed "failed-save" "hi".toList ∧
      (processGeminiJob envCreateFails store12 jobR1).store = store12) ∧
    ((processGeminiJob envUpdateFails store12 jobR1).outcome =
        .completed "failed-save" "hi".toList ∧
      (processGeminiJob envUpdateFails store12 jobR1).store.messages =
        store12.messages ++
          [⟨freshMessageId store12, "r1", "hi".toList, "ai", "text"⟩]) ∧
    ((processGeminiJob envOkGen store12 jobR1).outcome =
        .completed (freshMessageId store12) "hi".toList ∧
      (processGeminiJob envOkGen store12 jobR1).store.messages =
        store12.messages ++
          [⟨freshMessageId store12, "r1", "hi".toList, "ai", "text"⟩]) := by
  refine ⟨?_, ?_, ?_⟩
  · exact (persistenceFailure_swallowed envCreateFails store12 jobR1
      "hi".toList rfl).1 (Or.inr (Or.inr rfl))
  · have h := (persistenceFailure_swallowed envUpdateFails store12 jobR1
      "hi".toList rfl).2 ⟨"r1", "u1"⟩ rfl rfl (by decide)
    exact ⟨h.2.1 rfl, h.1⟩
  · have h := (persistenceFailure_swallowed envOkGen store12 jobR1
      "hi".toList rfl).2 ⟨"r1", "u1"⟩ rfl rfl (by decide)
    exact ⟨h.2.2 rfl, h.1⟩

/-- C4 counterexample: a generation attempt rejected as permanently
rejected (content safety) is not failed immediately with zero retries —
the queue retries it like any other failure, using all 3 attempts. -/
theorem permanentlyRejected_retried_cex :
    (runJob envRejected store12 jobR1).attemptsUsed = 3 ∧
    (runJob envRejected store12 jobR1).attemptsUsed ≠ 1 ∧
    (runJob envRejected store12 jobR1).finalOutcome =
      .failed "Failed to call Gemini API" := by decide

/-- C4 amended: the code classifies nothing — every generation failure
(transient, permanently rejected, or quota) is rethrown as the same
generic error, so the queue retries every class identically: the job ends
failed after exactly 3 total attempts, with zero persisted messages (the
store is unchanged). No failure class skips the retry budget and none is
singled out as non-retryable. -/
theorem generationFailure_always_retried (env : WorkerEnv) (s : Store)
    (job : GeminiMessageJob) (k : GenFailureKind) (hg : env.gen = .failure k) :
    runJob env s job = ⟨.failed "Failed to call Gemini API", 3, s⟩ := by
  have hp := processGeminiJob_gen_failure env s job k hg
  show runAttempts env job 3 s 0 = _
  rw [show (3 : Nat) = 2 + 1 from rfl, runAttempts, hp]
  rw [show (2 : Nat) = 1 + 1 from rfl, runAttempts, hp]
  rw [show (1 : Nat) = 0 + 1 from rfl, runAttempts, hp]
  rfl

/-- C4 witness: the amended statement evaluated for a transient failure on
the fixture store. -/
theorem generationFailure_always_retried_witness :
    runJob envTransient store12 jobR1 =
      ⟨.failed "Failed to call Gemini API", 3, store12⟩ :=
  generationFailure_always_retried envTransient store12 jobR1 .transient rfl

/-- C5 counterexample: user "u1" is at the basic daily limit (5 of 5), so
`canSendMessage` disallows with the daily-limit reason — yet the test
enqueue endpoint enqueues a job on behalf of that user without consulting
the gate, and processing that job does call the generation service. -/
theorem dailyLimit_gating_bypassed_cex :
    canSendMessage (findUser storeLimit "u1") =
      ⟨false, some "Daily message limit exceeded"⟩ ∧
    enqueueTestMessage (some "u1") (some "r1") (some "hello".toList)
      (some ⟨some "r1", some "u1", none⟩) 7 = some jobTest ∧
    (processGeminiJob envOkGen storeLimit jobTest).generationCalled = true := by
  decide

/-- C5 amended: for every user with an active subscription whose
today-count has reached the tier daily limit, `canSendMessage` returns
disallowed with reason "Daily message limit exceeded", and the
send-message path refuses to create the message or enqueue any job for
them; but the worker itself never gates and the test enqueue endpoint
enqueues without a check, so such a job can still reach the Generating
step (see the counterexample). -/
theorem dailyLimit_disallowed_send_path_gated (u : User) (s : Store)
    (env : SendEnv) (rid : String) (content : Content) (mt : Option String)
    (ha : u.subscriptionStatus = "active")
    (hl : (getSubscriptionLimits u.subscriptionTier).dailyMessageLimit ≤
      u.dailyMessageCount)
    (hs : s.available = true)
    (hu : s.users.find? (fun w => w.id == u.id) = some u)
    (hr : ∃ c, s.chatrooms.find?
      (fun c => c.id == rid && c.userId == u.id) = some c)
    (hne : (trimContent content).isEmpty = false)
    (hlen : content.length ≤ 4000) :
    canSendMessage (findUser s u.id) =
      ⟨false, some "Daily message limit exceeded"⟩ ∧
    ∀ pg, sendMessage env s (some u.id) (some rid) content mt pg =
      (.createError
        (.validation "Cannot send message: Daily message limit exceeded"), s) := by
  have hcan : canSendMessage (findUser s u.id) =
      ⟨false, some "Daily message limit exceeded"⟩ := by
    simp [canSendMessage, canSendMessageBody, findUser, hs, hu, ha, hl]
  refine ⟨hcan, ?_⟩
  intro pg
  rcases hr with ⟨c, hc⟩
  have hcm : createMessage s rid u.id content "user" mt =
      .error (.validation "Cannot send message: Daily message limit exceeded") := by
    simp [createMessage, hne, Nat.not_lt.mpr hlen, hs, hc, hcan]
  simp [sendMessage, hcm]

/-- C5 witness: the amended statement evaluated on the fixture store whose
user "u1" sits at the basic-tier limit. -/
theorem dailyLimit_disallowed_send_path_gated_witness :
    canSendMessage (findUser storeLimit "u1") =
      ⟨false, some "Daily message limit exceeded"⟩ ∧
    sendMessage ⟨true⟩ storeLimit (some "u1") (some "r1") "hello".toList
      none true =
      (.createError
        (.validation "Cannot send message: Daily message limit exceeded"),
        storeLimit) := by
  have h := dailyLimit_disallowed_send_path_gated ⟨"u1", "active", "basic", 5⟩
    storeLimit ⟨true⟩ "r1" "hello".toList none rfl (by decide) rfl (by decide)
    ⟨⟨"r1", "u1"⟩, by decide⟩ (by decide) (by decide)
  exact ⟨h.1, h.2 true⟩

/-- Helper: whatever `createMessage` successfully returns was persisted
with trimmed content, appended as the single new message of the store. -/
theorem createMessage_ok_spec (s : Store) (rid uid : String) (content : Content)
    (snd : String) (mt : Option String) (m : Message) (s1 : Store)
    (h : createMessage s rid uid content snd mt = .ok (m, s1)) :
    m.content = trimContent content ∧ s1.messages = s.messages ++ [m] := by
  simp only [createMessage] at h
  split at h
  · exact Except.noConfusion h
  split at h
  · exact Except.noConfusion h
  split at h
  · exact Except.noConfusion h
  split at h
  · exact Except.noConfusion h
  split at h
  · exact Except.noConfusion h
  split at h
  · exact Except.noConfusion h
  cases h
  refine ⟨rfl, ?_⟩
  split <;> rfl

/-- C8: once the user message is persisted, a failure to enqueue the AI
reply job is answered as a degraded 201 success ("sent, but AI processing
failed to queue") and the persisted message stays in the store — nothing
is rolled back or deleted. -/
theorem queueFailure_degraded_success (env : SendEnv) (s : Store)
    (userId rid : String) (content : Content) (mt : Option String)
    (m : Message) (s1 : Store)
    (hc : createMessage s rid userId content "user" mt = .ok (m, s1))
    (hq : env.queueOk = false) :
    sendMessage env s (some userId) (some rid) content mt true =
      (.sentQueueFailed m.id, s1) ∧
    m ∈ s1.messages := by
  constructor
  · simp [sendMessage, hc, hq]
  · rcases createMessage_ok_spec s rid userId content "user" mt m s1 hc with
      ⟨_, hmem⟩
    rw [hmem]
    exact List.mem_append_right _ (List.mem_singleton_self m)

/-- C8 witness: the degraded-success statement evaluated on the send
fixture store with the queue down. -/
theorem queueFailure_degraded_success_witness :
    sendMessage ⟨false⟩ storeSend (some "u1") (some "r1") "hello".toList
      none true =
      (.sentQueueFailed "gen-0",
        ⟨true, [⟨"r1", "u1"⟩], [⟨"u1", "active", "basic", 1⟩],
          [⟨"gen-0", "r1", "hello".toList, "user", "text"⟩]⟩) ∧
    (⟨"gen-0", "r1", "hello".toList, "user", "text"⟩ : Message) ∈
      (⟨true, [⟨"r1", "u1"⟩], [⟨"u1", "active", "basic", 1⟩],
        [⟨"gen-0", "r1", "hello".toList, "user", "text"⟩]⟩ : Store).messages :=
  queueFailure_degraded_success ⟨false⟩ storeSend "u1" "r1" "hello".toList
    none ⟨"gen-0", "r1", "hello".toList, "user", "text"⟩
    ⟨true, [⟨"r1", "u1"⟩], [⟨"u1", "active", "basic", 1⟩],
      [⟨"gen-0", "r1", "hello".toList, "user", "text"⟩]⟩
    rfl rfl

/-- Helper: every processing attempt reports the history it sent to the
generation call, namely the one built from `context?.chatRoomId`. -/
theorem processGeminiJob_historySent (env : WorkerEnv) (s : Store)
    (job : GeminiMessageJob) :
    (processGeminiJob env s job).historySent =
      some (getConversationHistory s (jobContextRoom job)) := by
  unfold processGeminiJob
  cases h : generateResponse env.gen <;> simp [h]

/-- C9: every job enqueued by the send-message endpoint carries a context
holding only messageType (no chatRoomId field), so the worker passes
`undefined` to `getConversationHistory` and the history sent to the
generation service is empty, whatever the worker store holds for that
chatroom. -/
theorem sendMessage_jobs_have_empty_window (env : SendEnv) (s : Store)
    (userId rid : String) (content : Content) (mt : Option String)
    (m : Message) (s1 : Store)
    (hc : createMessage s rid userId content "user" mt = .ok (m, s1))
    (hq : env.queueOk = true) :
    sendMessage env s (some userId) (some rid) content mt true =
      (.sentAndQueued m.id
        ⟨m.id, rid, userId, content, some ⟨none, none, some (mt.getD "text")⟩⟩,
        s1) ∧
    ∀ (wenv : WorkerEnv) (ws : Store),
      (processGeminiJob wenv ws
        ⟨m.id, rid, userId, content,
          some ⟨none, none, some (mt.getD "text")⟩⟩).historySent = some [] := by
  constructor
  · simp [sendMessage, hc, hq]
  · intro wenv ws
    rw [processGeminiJob_historySent]
    rfl

/-- C9 witness: a job produced by a successful send on the fixture store,
processed by a worker against the 12-message store — the history sent to
generation is still empty. -/
theorem sendMessage_jobs_have_empty_window_witness :
    sendMessage ⟨true⟩ storeSend (some "u1") (some "r1") "hello".toList
      none true =
      (.sentAndQueued "gen-0"
        ⟨"gen-0", "r1", "u1", "hello".toList, some ⟨none, none, some "text"⟩⟩,
        ⟨true, [⟨"r1", "u1"⟩], [⟨"u1", "active", "basic", 1⟩],
          [⟨"gen-0", "r1", "hello".toList, "user", "text"⟩]⟩) ∧
    (processGeminiJob envOkGen store12
      ⟨"gen-0", "r1", "u1", "hello".toList,
        some ⟨none, none, some "text"⟩⟩).historySent = some [] := by
  have h := sendMessage_jobs_have_empty_window ⟨true⟩ storeSend "u1" "r1"
    "hello".toList none ⟨"gen-0", "r1", "hello".toList, "user", "text"⟩
    ⟨true, [⟨"r1", "u1"⟩], [⟨"u1", "active", "basic", 1⟩],
      [⟨"gen-0", "r1", "hello".toList, "user", "text"⟩]⟩
    rfl rfl
  exact ⟨h.1, h.2 envOkGen store12⟩

/-- C10: `createMessage` rejects empty or whitespace-only content, and
content longer than 4000 characters (measured untrimmed), with validation
errors before any write; accepted content is persisted trimmed; and the
worker persistence path (`saveGeminiResponse`) applies no such check — it
appends whatever content the response carries, of any length. -/
theorem createMessage_validation_worker_bypass (s : Store) (rid uid : String)
    (content : Content) (mt : Option String) :
    ((trimContent content).isEmpty = true →
      createMessage s rid uid content "user" mt =
        .error (.validation "Message content is required")) ∧
    ((trimContent content).isEmpty = false → 4000 < content.length →
      createMessage s rid uid content "user" mt =
        .error (.validation "Message content cannot exceed 4000 characters")) ∧
    (∀ (snd : String) (m : Message) (s1 : Store),
      createMessage s rid uid content snd mt = .ok (m, s1) →
      m.content = trimContent content) ∧
    (∀ (env : SaveEnv) (resp : ProcessedResponse) (c : Chatroom),
      s.available = true → env.createOk = true →
      s.chatrooms.find? (fun cr => cr.id == rid) = some c →
      (saveGeminiResponse env s rid resp).2.messages =
        s.messages ++ [⟨freshMessageId s, rid, resp.content, "ai", "text"⟩]) := by
  refine ⟨?_, ?_, ?_, ?_⟩
  · intro h
    simp [createMessage, h]
  · intro hne hlen
    simp [createMessage, hne, hlen]
  · intro snd m s1 h
    exact (createMessage_ok_spec s rid uid content snd mt m s1 h).1
  · intro env resp c hA hC hF
    exact (saveGeminiResponse_appends env s rid resp c hA hC hF).1

/-- Helper: trimming a nonempty run of one non-whitespace character
leaves it unchanged. -/
theorem trimContent_replicate (n : Nat) (c : Char) (hc : isWsChar c = false) :
    trimContent (List.replicate (n + 1) c) = List.replicate (n + 1) c := by
  have h1 : List.dropWhile isWsChar (List.replicate (n + 1) c) =
      List.replicate (n + 1) c := by
    rw [List.replicate_succ, List.dropWhile_cons]
    simp [hc]
  unfold trimContent
  rw [h1, List.reverse_replicate, h1, List.reverse_replicate]

/-- C10 witness: whitespace-only content and 4001-character content are
rejected on the fixture store, accepted content is stored trimmed, and
the worker path persists a 4001-character AI reply untouched. -/
theorem createMessage_validation_worker_bypass_witness :
    createMessage storeSend "r1" "u1" "   ".toList "user" none =
      .error (.validation "Message content is required") ∧
    createMessage storeSend "r1" "u1" (List.replicate 4001 'a') "user" none =
      .error (.validation "Message content cannot exceed 4000 characters") ∧
    (⟨"gen-0", "r1", "hi".toList, "user", "text"⟩ : Message).content =
      trimContent "  hi  ".toList ∧
    (saveGeminiResponse ⟨true, true⟩ storeSend "r1"
      ⟨List.replicate 4001 'a', false, false, false⟩).2.messages =
      storeSend.messages ++
        [⟨freshMessageId storeSend, "r1", List.replicate 4001 'a', "ai", "text"⟩] := by
  refine ⟨?_, ?_, ?_, ?_⟩
  · exact (createMessage_validation_worker_bypass storeSend "r1" "u1"
      "   ".toList none).1 (by decide)
  · exact (createMessage_validation_worker_bypass storeSend "r1" "u1"
      (List.replicate 4001 'a') none).2.1
      (by rw [show (4001 : Nat) = 4000 + 1 from rfl,
            trimContent_replicate 4000 'a' rfl, List.replicate_succ]
          rfl)
      (by rw [List.length_replicate]
          omega)
  · exact (createMessage_validation_worker_bypass storeSend "r1" "u1"
      "  hi  ".toList none).2.2.1 "user"
      ⟨"gen-0", "r1", "hi".toList, "user", "text"⟩
      ⟨true, [⟨"r1", "u1"⟩], [⟨"u1", "active", "basic", 1⟩],
        [⟨"gen-0", "r1", "hi".toList, "user", "text"⟩]⟩ rfl
  · exact (createMessage_validation_worker_bypass storeSend "r1" "u1"
      (List.replicate 4001 'a') none).2.2.2 ⟨true, true⟩
      ⟨List.replicate 4001 'a', false, false, false⟩ ⟨"r1", "u1"⟩ rfl rfl
      (by decide)

end GeminiChat
